import Mathlib

/-!
Verification of the gitstatus daemon's configuration layer (`src/options.cc`)
and a spec-level model of its repository-status core.

The repository ships one source file, `src/options.cc`, holding `ParseLong`,
`ParseInt`, `PrintUsage` and `ParseOptions`.  Those functions are embedded
below directly from the source; the C library pieces they lean on
(`strtol`, GNU `getopt_long`) are modelled at the fidelity the embedded
functions exercise.  The status engine itself (codec, locator, differ,
divergence, dispatch loop) is not in the source tree, so it is modelled
from the design document; each such definition is marked
`Modelled from the spec:` in its doc comment.

Process exit is modelled with `Except Nat`: `.error e` is `std::exit(e)`,
`.ok v` is a normal return of `v`.
-/

namespace Gitstatus

/-! ## C numeric limits (64-bit Linux target) -/

def INT_MAX : Int := 2 ^ 31 - 1

def INT_MIN : Int := -(2 ^ 31)

def LONG_MAX : Int := 2 ^ 63 - 1

def LONG_MIN : Int := -(2 ^ 63)

/-! ## `strtol(s, &end, 10)` as used by `ParseLong` -/

/-- `isspace` in the C locale: space, `\t`, `\n`, vertical tab, form feed, `\r`. -/
def isCSpace (c : Char) : Bool :=
  c = ' ' || c = '\t' || c = '\n' || c = Char.ofNat 11 || c = Char.ofNat 12 || c = '\r'

/-- Value of a nonempty run of decimal digits. -/
def digitsVal (ds : List Char) : Nat :=
  ds.foldl (fun a c => 10 * a + (c.toNat - 48)) 0

/-- Outcome of `strtol` base 10: the returned value (after clamping on
overflow), the suffix `end` points at, and whether `errno` was set
(`ERANGE`). -/
structure StrtolOut where
  val : Int
  rest : List Char
  err : Bool
deriving DecidableEq

/-- `strtol(s, &end, 10)`: skip C whitespace, optional sign, then decimal
digits.  With no digits the value is 0 and `end` is reset to the start of
the string; on overflow the value clamps to `LONG_MAX`/`LONG_MIN` and
`errno` is set to `ERANGE`. -/
def strtol (s : List Char) : StrtolOut :=
  let t := s.dropWhile isCSpace
  let sgned : Int × List Char :=
    match t with
    | '+' :: u => (1, u)
    | '-' :: u => (-1, u)
    | _ => (1, t)
  let ds := sgned.2.takeWhile Char.isDigit
  let rest := sgned.2.drop ds.length
  if ds.isEmpty then
    { val := 0, rest := s, err := false }
  else
    let v : Int := sgned.1 * (digitsVal ds : Int)
    if v > LONG_MAX then { val := LONG_MAX, rest := rest, err := true }
    else if v < LONG_MIN then { val := LONG_MIN, rest := rest, err := true }
    else { val := v, rest := rest, err := false }

/-- `ParseLong` from `options.cc`: `strtol` base 10; if `*end` is nonzero
(unconsumed suffix) or `errno` was set, print an error and `exit(1)`. -/
def ParseLong (s : String) : Except Nat Int :=
  let r := strtol s.data
  if r.rest.isEmpty && !r.err then .ok r.val else .error 1

/-- `ParseInt` from `options.cc`: `ParseLong`, then `exit(1)` if the value
lies outside `[INT_MIN, INT_MAX]`. -/
def ParseInt (s : String) : Except Nat Int := do
  let res ← ParseLong s
  if res < INT_MIN ∨ res > INT_MAX then .error 1 else .ok res

/-! ## The `Options` struct and `ParseOptions` -/

/-- Modelled from the spec: `options.h` (declaring `struct Options` and its
field defaults) is not in the source tree.  The design document gives
`lock_fd: int (default -1)`, `sigwinch_pid: int (default -1)`,
`num_threads: int (default: CPU count)`,
`dirty_max_index_size: int (default -1, meaning unbounded)`.
`dirty_max_index_size` and `num_threads` receive `long` values in
`ParseOptions`, so every field is carried as a mathematical integer. -/
structure Options where
  lock_fd : Int
  sigwinch_pid : Int
  num_threads : Int
  dirty_max_index_size : Int
deriving DecidableEq

/-- The default-initialized `Options`, parametrized by the detected CPU
count (the spec's default for `num_threads`). -/
def defaultOptions (cpus : Int) : Options :=
  { lock_fd := -1, sigwinch_pid := -1, num_threads := cpus,
    dirty_max_index_size := -1 }

/-- The `option opts[]` table of `ParseOptions`: long name, whether the
option takes a required argument, and the short code `getopt_long`
returns for it. -/
def longOpts : List (String × Bool × Char) :=
  [("help", false, 'h'), ("lock-fd", true, 'l'), ("sigwinch-pid", true, 'p'),
   ("num-threads", true, 't'), ("dirty-max-index-size", true, 'm')]

/-- GNU long-option lookup: an exact name match wins; otherwise a name that
is an unambiguous proper prefix of exactly one table entry matches it;
anything else is the unknown-option result. -/
def matchLong (name : String) : Option (Bool × Char) :=
  match longOpts.find? (fun o => o.1 = name) with
  | some o => some o.2
  | none =>
    match longOpts.filter (fun o => name.data.isPrefixOf o.1.data) with
    | [o] => some o.2
    | _ => none

/-- Split the text after `--` at the first `=`: `--name=value` gives
`(name, some value)`, `--name` gives `(name, none)`. -/
def splitAtEq (s : List Char) : String × Option String :=
  match s.span (fun c => c ≠ '=') with
  | (pre, []) => (⟨pre⟩, none)
  | (pre, _ :: post) => (⟨pre⟩, some ⟨post⟩)

/-- One arm of the `switch` in `ParseOptions`, applied to the option code
`getopt_long` returned and its `optarg`:
`l` sets `lock_fd` via `ParseInt`; `p` sets `sigwinch_pid` via `ParseInt`;
`t` runs `ParseLong` and `exit(1)`s unless the value is positive;
`m` sets `dirty_max_index_size` via `ParseLong`. -/
def applyOpt (res : Options) (c : Char) (val : String) : Except Nat Options :=
  if c = 'l' then (ParseInt val).map fun n => { res with lock_fd := n }
  else if c = 'p' then (ParseInt val).map fun n => { res with sigwinch_pid := n }
  else if c = 't' then
    (ParseLong val).bind fun n =>
      if n ≤ 0 then .error 1 else .ok { res with num_threads := n }
  else if c = 'm' then (ParseLong val).map fun n => { res with dirty_max_index_size := n }
  else .error 1

/-- The `getopt_long` loop of `ParseOptions` over the arguments after
`argv[0]`, with optstring `"hl:t:m:"`.  The `Option Char` state is `some c`
when option `c` was seen with a required argument still to be taken from
the next `argv` element.

Faithful to GNU `getopt_long` for the cases the program exercises:
`--` ends option scanning and the accumulated `Options` is returned;
a `--name` or `--name=value` argument is resolved through `matchLong`
(unknown or ambiguous names, a missing required argument, or an argument
given to `--help`, make `getopt_long` return `?`, and the `default:` arm
of the `switch` calls `exit(1)`); `-h` prints usage and `exit(0)`s;
`-l`, `-t`, `-m` take the rest of their cluster or the next argument as
`optarg`; any other short option, `p` included, is unknown (`?`, so
`exit(1)`); a non-option argument is permuted past and scanning
continues. -/
def parseLoop : Options → Option Char → List String → Except Nat Options
  | _, some _, [] => .error 1
  | res, some c, v :: rest =>
    match applyOpt res c v with
    | .error e => .error e
    | .ok res2 => parseLoop res2 none rest
  | res, none, [] => .ok res
  | res, none, arg :: rest =>
    match arg.data with
    | '-' :: '-' :: [] => .ok res
    | '-' :: '-' :: body =>
      match splitAtEq body with
      | (name, eqv) =>
        match matchLong name with
        | none => .error 1
        | some (requiresArg, c) =>
          if requiresArg then
            match eqv with
            | some v =>
              match applyOpt res c v with
              | .error e => .error e
              | .ok res2 => parseLoop res2 none rest
            | none => parseLoop res (some c) rest
          else
            match eqv with
            | some _ => .error 1
            | none => .error 0
    | '-' :: c :: cs =>
      if c = 'h' then .error 0
      else if c = 'l' || c = 't' || c = 'm' then
        match cs with
        | [] => parseLoop res (some c) rest
        | _ :: _ =>
          match applyOpt res c (⟨cs⟩ : String) with
          | .error e => .error e
          | .ok res2 => parseLoop res2 none rest
      else .error 1
    | _ => parseLoop res none rest

/-- `ParseOptions` from `options.cc`: default-initialize `Options`
(defaults modelled from the spec, see `Options`), then run the
`getopt_long` loop over the command-line arguments after `argv[0]`. -/
def ParseOptions (cpus : Int) (args : List String) : Except Nat Options :=
  parseLoop (defaultOptions cpus) none args

/-! ## The status engine, modelled from the spec

The engine itself (protocol codec, repository locator, state reader,
index/worktree differ, divergence and tag resolver, dispatch loop) is not
in the source tree; only its configuration layer is.  The definitions
below model it from the design document. -/

/-- Modelled from the spec: the tri-state `{yes, no, unknown}` used for
`has_unstaged` and `has_untracked`. -/
inductive Tri where
  | yes
  | no
  | unknown
deriving DecidableEq

/-- A computed boolean answer as a tri-state (never `unknown`). -/
def Tri.ofBool : Bool → Tri
  | true => .yes
  | false => .no

/-- Modelled from the spec: the protocol encoding of a tri-state field —
`1` / `0` / `-1`. -/
def Tri.encode : Tri → String
  | .yes => "1"
  | .no => "0"
  | .unknown => "-1"

/-- Modelled from the spec: the protocol encoding of a boolean field. -/
def boolField (b : Bool) : String := if b then "1" else "0"

/-- Modelled from the spec: one path entry with its recorded content hash,
as it appears in the index, in HEAD tree, or in the live working tree. -/
structure Entry where
  path : String
  hash : String
deriving DecidableEq

/-- Modelled from the spec: the repository content the engine reads —
identity and state-reader fields (spec section 4.3), the index, HEAD tree
and working tree consulted by the differ (4.4), the two reachable commit
sets and the tag list consulted by the divergence and tag resolver
(4.5). -/
structure Repo where
  workdir : String
  head_commit : String
  local_branch : String
  upstream_branch : Option String
  remote_url : String
  state : String
  indexEntries : List Entry
  headTree : List Entry
  worktree : List Entry
  ignored : List String
  reachLocal : List String
  reachUpstream : List String
  tags : List (String × String)
deriving DecidableEq

/-- The content hash recorded for a path in an entry list, if present. -/
def hashAt (l : List Entry) (p : String) : Option String :=
  (l.find? fun e => e.path = p).map fun e => e.hash

/-- Modelled from the spec (4.4 step 3): any addition, deletion or
content mismatch between the index and HEAD tree. -/
def hasStaged (r : Repo) : Bool :=
  (r.indexEntries.any fun e => decide (hashAt r.headTree e.path ≠ some e.hash)) ||
  (r.headTree.any fun e => decide (hashAt r.indexEntries e.path = none))

/-- Modelled from the spec (4.4 step 4): an index entry is dirty when the
live working tree does not hold the recorded content for its path (a
missing file counts as unstaged deletion, never as untracked). -/
def entryDirty (r : Repo) (e : Entry) : Bool :=
  decide (hashAt r.worktree e.path ≠ some e.hash)

/-- Modelled from the spec (4.4 step 4): the unstaged scan over a
partition of the index into contiguous per-thread ranges; a confirmed
difference in any range sets the flag. -/
def hasUnstagedPar (r : Repo) (chunks : List (List Entry)) : Bool :=
  chunks.any fun chunk => chunk.any (entryDirty r)

/-- The sequential unstaged scan (the trivial one-range partition). -/
def hasUnstaged (r : Repo) : Bool :=
  r.indexEntries.any (entryDirty r)

/-- Modelled from the spec (4.4 step 5): a working-tree path not present
in the index and not ignored. -/
def hasUntracked (r : Repo) : Bool :=
  r.worktree.any fun e =>
    decide (hashAt r.indexEntries e.path = none ∧ e.path ∉ r.ignored)

/-- Modelled from the spec (4.4): `Diff(handle, options)`.  Staged status
is always computed; if `dirty_max_index_size >= 0` and the index entry
count exceeds it, the unstaged and untracked scans are skipped and both
flags are `unknown`; otherwise they run over the given per-thread
partition of the index. -/
def Diff (opts : Options) (r : Repo) (chunks : List (List Entry)) :
    Bool × Tri × Tri :=
  if 0 ≤ opts.dirty_max_index_size ∧
      opts.dirty_max_index_size < (r.indexEntries.length : Int) then
    (hasStaged r, .unknown, .unknown)
  else
    (hasStaged r, .ofBool (hasUnstagedPar r chunks), .ofBool (hasUntracked r))

/-- Modelled from the spec (4.5): `Divergence`.  With no upstream
configured both counts are `0` by convention; otherwise each count is the
number of commits reachable from one tip but not the other (the one-sided
differences from the merge base). -/
def Divergence (r : Repo) : Int × Int :=
  match r.upstream_branch with
  | none => (0, 0)
  | some _ =>
    (((r.reachLocal.filter fun c => decide (c ∉ r.reachUpstream)).length : Int),
     ((r.reachUpstream.filter fun c => decide (c ∉ r.reachLocal)).length : Int))

/-- Modelled from the spec (4.5): `FirstTag` — the lexicographically
first tag name resolving to `head_commit`, or the empty field if none. -/
def firstTag (r : Repo) : String :=
  (((r.tags.filter fun t => t.2 = r.head_commit).map fun t => t.1).foldl
    (fun acc t =>
      match acc with
      | none => some t
      | some m => if t < m then some t else some m) none).getD ""

/-- Modelled from the spec: a decoded request record — an opaque id and a
path. -/
structure Request where
  id : String
  path : String
deriving DecidableEq

/-- Modelled from the spec (4.2, section 7): locating a repository from a
path either finds none, fails to read one (permissions/corruption), or
yields the repository content. -/
inductive LocateOutcome where
  | notRepo
  | unreadable
  | found : Repo → LocateOutcome
deriving DecidableEq

/-- Modelled from the spec (sections 6 and 7): the engine's response
record for one request, parametrized by the locator and by the per-thread
index partition chosen for the unstaged scan.  A request whose path does
not resolve to a repository, and any per-request failure, yield the
two-field record `[id, "0"]`; otherwise the full 15-field record is
emitted. -/
def respondSched (opts : Options) (locate : String → LocateOutcome)
    (sched : Repo → List (List Entry)) (req : Request) : List String :=
  match locate req.path with
  | .notRepo => [req.id, "0"]
  | .unreadable => [req.id, "0"]
  | .found r =>
    let d := Diff opts r (sched r)
    let ab := Divergence r
    [req.id, "1", r.workdir, r.head_commit, r.local_branch,
     r.upstream_branch.getD "", r.remote_url, r.state, boolField d.1,
     d.2.1.encode, d.2.2.encode, toString ab.1, toString ab.2, firstTag r,
     r.workdir]

/-- The engine with the trivial single-range schedule. -/
def respond (opts : Options) (locate : String → LocateOutcome)
    (req : Request) : List String :=
  respondSched opts locate (fun r => [r.indexEntries]) req

/-- Modelled from the spec (4.7): the dispatch loop — read one request,
emit one response, repeat until end of input. -/
def dispatch (opts : Options) (locate : String → LocateOutcome)
    (sched : Repo → List (List Entry)) : List Request → List (List String)
  | [] => []
  | req :: rest =>
    respondSched opts locate sched req :: dispatch opts locate sched rest

/-! ## Sample values used by witnesses -/

/-- A small concrete repository: two index entries, an upstream, three
local-side and two upstream-side reachable commits sharing one. -/
def sampleRepo : Repo :=
  { workdir := "/w", head_commit := "h1", local_branch := "master",
    upstream_branch := some "origin/master", remote_url := "u", state := "",
    indexEntries := [⟨"a", "1"⟩, ⟨"b", "2"⟩], headTree := [⟨"a", "1"⟩],
    worktree := [⟨"a", "1"⟩, ⟨"b", "2"⟩], ignored := [],
    reachLocal := ["c1", "c2", "c3"], reachUpstream := ["c1", "c4"],
    tags := [] }

/-- `sampleRepo` with no upstream configured. -/
def sampleRepoNoUpstream : Repo :=
  { sampleRepo with upstream_branch := none }

/-- A locator that knows only `sampleRepo` at `/w`. -/
def sampleLocate : String → LocateOutcome :=
  fun p => if p = "/w" then .found sampleRepo else .notRepo

/-! ## Helper lemmas -/

theorem any_join_eq {α : Type} (p : α → Bool) :
    ∀ chunks : List (List α), chunks.flatten.any p = chunks.any fun c => c.any p
  | [] => rfl
  | c :: cs => by
    simp [List.flatten, List.any_append, any_join_eq p cs]

theorem hasUnstagedPar_eq (r : Repo) (chunks : List (List Entry))
    (h : chunks.flatten = r.indexEntries) :
    hasUnstagedPar r chunks = hasUnstaged r := by
  unfold hasUnstagedPar hasUnstaged
  rw [← any_join_eq, h]

theorem length_filter_not_mem {α : Type} [DecidableEq α] (l₁ l₂ : List α)
    (h : l₁.Nodup) :
    (l₁.filter fun c => decide (c ∉ l₂)).length =
      (l₁.toFinset \ l₂.toFinset).card := by
  rw [Finset.sdiff_eq_filter, ← List.toFinset_card_of_nodup (h.filter _),
    List.toFinset_filter]
  congr 1
  apply Finset.filter_congr
  intro x _
  simp

theorem parseLoop_pending_err (r0 : Options) (c : Char) (v : String)
    (rs : List String) (hc : applyOpt r0 c v = .error 1) :
    parseLoop r0 (some c) (v :: rs) = .error 1 := by
  simp only [parseLoop, hc]

theorem parseLoop_pending_ok (r0 r1 : Options) (c : Char) (v : String)
    (rs : List String) (hc : applyOpt r0 c v = .ok r1) :
    parseLoop r0 (some c) (v :: rs) = parseLoop r1 none rs := by
  simp only [parseLoop, hc]

/-! ## Claims -/

/-- C1: the claim says a non-positive `--num-threads` value yields a
configuration whose effective thread count is the CPU count, as the
program's own usage text promises; `ParseOptions` instead rejects any
non-positive value with `exit(1)`.  Only the default (no `-t` flag at
all) carries the CPU count. -/
theorem numThreadsNonPositiveRejected (cpus : Int) (rest : List String) :
    ParseOptions cpus ("--num-threads" :: "0" :: rest) = .error 1 ∧
    ParseOptions cpus ("--num-threads" :: "-3" :: rest) = .error 1 ∧
    ParseOptions cpus ("-t" :: "0" :: rest) = .error 1 ∧
    ParseOptions cpus [] = .ok (defaultOptions cpus) ∧
    (defaultOptions cpus).num_threads = cpus :=
  ⟨rfl, rfl, rfl, rfl, rfl⟩

/-- C2: when `dirty_max_index_size` is non-negative and the index entry
count exceeds it, `Diff` returns `unknown` (encoded `-1`) for both the
unstaged and untracked flags while still computing the staged flag;
when the limit is negative or not exceeded, both flags are computed
yes/no answers, never `unknown`. -/
theorem diffRespectsDirtyMaxIndexSize (opts : Options) (r : Repo)
    (chunks : List (List Entry)) :
    (0 ≤ opts.dirty_max_index_size →
      opts.dirty_max_index_size < (r.indexEntries.length : Int) →
      Diff opts r chunks = (hasStaged r, .unknown, .unknown) ∧
      Tri.unknown.encode = "-1") ∧
    (opts.dirty_max_index_size < 0 ∨
        (r.indexEntries.length : Int) ≤ opts.dirty_max_index_size →
      Diff opts r chunks =
        (hasStaged r, .ofBool (hasUnstagedPar r chunks),
         .ofBool (hasUntracked r)) ∧
      Tri.ofBool (hasUnstagedPar r chunks) ≠ .unknown ∧
      Tri.ofBool (hasUntracked r) ≠ .unknown) := by
  constructor
  · intro h1 h2
    exact ⟨by simp [Diff, h1, h2], rfl⟩
  · intro h
    have hc : ¬ (0 ≤ opts.dirty_max_index_size ∧
        opts.dirty_max_index_size < (r.indexEntries.length : Int)) := by
      omega
    refine ⟨by simp [Diff, hc], ?_, ?_⟩
    · cases hasUnstagedPar r chunks <;> simp [Tri.ofBool]
    · cases hasUntracked r <;> simp [Tri.ofBool]

/-- C2 witness: with limit 1 and a 2-entry index the flags are `unknown`;
with the default limit -1 they are computed. -/
theorem diffRespectsDirtyMaxIndexSize_witness :
    (Diff ⟨-1, -1, 8, 1⟩ sampleRepo [sampleRepo.indexEntries] =
        (hasStaged sampleRepo, .unknown, .unknown) ∧
      Tri.unknown.encode = "-1") ∧
    Diff ⟨-1, -1, 8, -1⟩ sampleRepo [sampleRepo.indexEntries] =
      (hasStaged sampleRepo,
       .ofBool (hasUnstagedPar sampleRepo [sampleRepo.indexEntries]),
       .ofBool (hasUntracked sampleRepo)) :=
  ⟨(diffRespectsDirtyMaxIndexSize ⟨-1, -1, 8, 1⟩ sampleRepo
      [sampleRepo.indexEntries]).1 (by decide) (by decide),
   ((diffRespectsDirtyMaxIndexSize ⟨-1, -1, 8, -1⟩ sampleRepo
      [sampleRepo.indexEntries]).2 (Or.inl (by decide))).1⟩

/-- C3: the dispatch loop emits exactly one response per request, and the
output stream is the input stream mapped in order — nothing dropped,
nothing reordered. -/
theorem dispatchOneResponsePerRequestInOrder (opts : Options)
    (locate : String → LocateOutcome) (sched : Repo → List (List Entry)) :
    ∀ reqs : List Request,
      dispatch opts locate sched reqs =
        reqs.map (respondSched opts locate sched) ∧
      (dispatch opts locate sched reqs).length = reqs.length := by
  intro reqs
  induction reqs with
  | nil => exact ⟨rfl, rfl⟩
  | cons r rs ih =>
    refine ⟨?_, ?_⟩
    · simp [dispatch, ih.1]
    · simp [dispatch, ih.2]

/-- C4: a request whose path does not resolve to a repository, and any
per-request failure, produce a response holding the request id and
`is_repo = "0"` only — the remaining fields are omitted entirely. -/
theorem notRepoResponseOmitsFields (opts : Options)
    (locate : String → LocateOutcome) (sched : Repo → List (List Entry))
    (req : Request) :
    (locate req.path = .notRepo →
      respondSched opts locate sched req = [req.id, "0"]) ∧
    (locate req.path = .unreadable →
      respondSched opts locate sched req = [req.id, "0"]) := by
  constructor <;> intro h <;> simp [respondSched, h]

/-- C4 witness: a path with no repository, and an unreadable repository,
both yield the two-field response. -/
theorem notRepoResponseOmitsFields_witness :
    respondSched ⟨-1, -1, 8, -1⟩ sampleLocate (fun r => [r.indexEntries])
      ⟨"id1", "/nope"⟩ = ["id1", "0"] ∧
    respondSched ⟨-1, -1, 8, -1⟩ (fun _ => .unreadable)
      (fun r => [r.indexEntries]) ⟨"id1", "/w"⟩ = ["id1", "0"] :=
  ⟨(notRepoResponseOmitsFields ⟨-1, -1, 8, -1⟩ sampleLocate
      (fun r => [r.indexEntries]) ⟨"id1", "/nope"⟩).1 rfl,
   (notRepoResponseOmitsFields ⟨-1, -1, 8, -1⟩ (fun _ => .unreadable)
      (fun r => [r.indexEntries]) ⟨"id1", "/w"⟩).2 rfl⟩

/-- C5: any flag value `ParseLong` cannot parse as an integer makes
option parsing exit with status 1; no configuration is returned, for any
of the integer-valued flags, long or short form. -/
theorem invalidIntegerFlagExits (res : Options) (cpus : Int) (s : String)
    (rest : List String) (h : ParseLong s = .error 1) :
    parseLoop res none ("--lock-fd" :: s :: rest) = .error 1 ∧
    parseLoop res none ("--sigwinch-pid" :: s :: rest) = .error 1 ∧
    parseLoop res none ("--num-threads" :: s :: rest) = .error 1 ∧
    parseLoop res none ("--dirty-max-index-size" :: s :: rest) = .error 1 ∧
    ParseOptions cpus ("-l" :: s :: rest) = .error 1 ∧
    ParseOptions cpus ("-t" :: s :: rest) = .error 1 ∧
    ParseOptions cpus ("-m" :: s :: rest) = .error 1 := by
  have hPI : ParseInt s = .error 1 := by
    unfold ParseInt
    rw [h]
    rfl
  have hl : ∀ r0 : Options, applyOpt r0 'l' s = .error 1 := fun r0 => by
    have e1 : applyOpt r0 'l' s =
        (ParseInt s).map fun n => { r0 with lock_fd := n } := rfl
    rw [e1, hPI]
    rfl
  have hp : ∀ r0 : Options, applyOpt r0 'p' s = .error 1 := fun r0 => by
    have e1 : applyOpt r0 'p' s =
        (ParseInt s).map fun n => { r0 with sigwinch_pid := n } := rfl
    rw [e1, hPI]
    rfl
  have ht : ∀ r0 : Options, applyOpt r0 't' s = .error 1 := fun r0 => by
    have e1 : applyOpt r0 't' s = (ParseLong s).bind fun n =>
        if n ≤ 0 then .error 1 else .ok { r0 with num_threads := n } := rfl
    rw [e1, h]
    rfl
  have hm : ∀ r0 : Options, applyOpt r0 'm' s = .error 1 := fun r0 => by
    have e1 : applyOpt r0 'm' s =
        (ParseLong s).map fun n => { r0 with dirty_max_index_size := n } := rfl
    rw [e1, h]
    rfl
  refine ⟨?_, ?_, ?_, ?_, ?_, ?_, ?_⟩
  · exact parseLoop_pending_err res 'l' s rest (hl res)
  · exact parseLoop_pending_err res 'p' s rest (hp res)
  · exact parseLoop_pending_err res 't' s rest (ht res)
  · exact parseLoop_pending_err res 'm' s rest (hm res)
  · exact parseLoop_pending_err (defaultOptions cpus) 'l' s rest (hl _)
  · exact parseLoop_pending_err (defaultOptions cpus) 't' s rest (ht _)
  · exact parseLoop_pending_err (defaultOptions cpus) 'm' s rest (hm _)

/-- C5 witness: the non-integer value `abc` is rejected everywhere. -/
theorem invalidIntegerFlagExits_witness :
    ParseLong "abc" = .error 1 ∧
    parseLoop (defaultOptions 8) none ["--lock-fd", "abc"] = .error 1 ∧
    parseLoop (defaultOptions 8) none ["--sigwinch-pid", "abc"] = .error 1 ∧
    parseLoop (defaultOptions 8) none ["--num-threads", "abc"] = .error 1 ∧
    parseLoop (defaultOptions 8) none ["--dirty-max-index-size", "abc"] =
      .error 1 ∧
    ParseOptions 8 ["-l", "abc"] = .error 1 ∧
    ParseOptions 8 ["-t", "abc"] = .error 1 ∧
    ParseOptions 8 ["-m", "abc"] = .error 1 :=
  ⟨rfl, invalidIntegerFlagExits (defaultOptions 8) 8 "abc" [] rfl⟩

/-- C6: with no upstream configured both divergence counts are 0, not
unknown; with an upstream they are the cardinalities of the two one-sided
differences of the reachable commit sets. -/
theorem divergenceCounts (r : Repo) :
    (r.upstream_branch = none → Divergence r = (0, 0)) ∧
    (∀ b, r.upstream_branch = some b → r.reachLocal.Nodup →
      r.reachUpstream.Nodup →
      (Divergence r).1 =
        ((r.reachLocal.toFinset \ r.reachUpstream.toFinset).card : Int) ∧
      (Divergence r).2 =
        ((r.reachUpstream.toFinset \ r.reachLocal.toFinset).card : Int)) := by
  constructor
  · intro h
    simp [Divergence, h]
  · intro b hb h1 h2
    simp only [Divergence, hb]
    exact ⟨by rw [length_filter_not_mem _ _ h1],
           by rw [length_filter_not_mem _ _ h2]⟩

/-- C6 witness: no upstream gives (0, 0); with an upstream the counts
match the set-difference cardinalities on a concrete repository. -/
theorem divergenceCounts_witness :
    Divergence sampleRepoNoUpstream = (0, 0) ∧
    (Divergence sampleRepo).1 =
      ((sampleRepo.reachLocal.toFinset \
        sampleRepo.reachUpstream.toFinset).card : Int) ∧
    (Divergence sampleRepo).2 =
      ((sampleRepo.reachUpstream.toFinset \
        sampleRepo.reachLocal.toFinset).card : Int) :=
  ⟨(divergenceCounts sampleRepoNoUpstream).1 rfl,
   ((divergenceCounts sampleRepo).2 "origin/master" rfl (by decide)
     (by decide)).1,
   ((divergenceCounts sampleRepo).2 "origin/master" rfl (by decide)
     (by decide)).2⟩

/-- C7: `ParseOptions` with no option flags returns the defaults:
`lock_fd = -1`, `sigwinch_pid = -1`, `dirty_max_index_size = -1`, and
`num_threads` equal to the detected CPU count. -/
theorem parseOptionsDefaults (cpus : Int) :
    ParseOptions cpus [] =
      .ok { lock_fd := -1, sigwinch_pid := -1, num_threads := cpus,
            dirty_max_index_size := -1 } := rfl

/-- C8: the engine's response bytes do not depend on how the unstaged
scan is partitioned across worker threads: any two valid contiguous
partitions of the index (and hence any two runs over an unchanged
repository) produce identical response records. -/
theorem engineScheduleIndependent (opts : Options)
    (locate : String → LocateOutcome) (s1 s2 : Repo → List (List Entry))
    (req : Request) :
    ((locate req.path = .notRepo ∨ locate req.path = .unreadable) →
      respondSched opts locate s1 req = respondSched opts locate s2 req) ∧
    (∀ r, locate req.path = .found r →
      (s1 r).flatten = r.indexEntries → (s2 r).flatten = r.indexEntries →
      respondSched opts locate s1 req = respondSched opts locate s2 req) := by
  constructor
  · rintro (h | h) <;> simp [respondSched, h]
  · intro r h h1 h2
    simp [respondSched, h, Diff, hasUnstagedPar_eq r (s1 r) h1,
      hasUnstagedPar_eq r (s2 r) h2]

/-- C8 witness: a one-range schedule and a singleton-per-entry schedule
produce the same response on a concrete repository. -/
theorem engineScheduleIndependent_witness :
    respondSched ⟨-1, -1, 8, -1⟩ sampleLocate (fun r => [r.indexEntries])
      ⟨"i", "/w"⟩ =
    respondSched ⟨-1, -1, 8, -1⟩ sampleLocate
      (fun r => r.indexEntries.map fun e => [e]) ⟨"i", "/w"⟩ :=
  (engineScheduleIndependent ⟨-1, -1, 8, -1⟩ sampleLocate
    (fun r => [r.indexEntries]) (fun r => r.indexEntries.map fun e => [e])
    ⟨"i", "/w"⟩).2 sampleRepo rfl (by simp) (by decide)

/-- C9: the usage text advertises `-p`, but the optstring `hl:t:m:` has
no `p`: every `-p NUM` invocation exits with status 1 (whether the value
is separate or attached), while the long form `--sigwinch-pid` sets the
field. -/
theorem sigwinchShortOptionRejected (cpus : Int) (rest : List String) :
    ParseOptions cpus ("-p" :: rest) = .error 1 ∧
    ParseOptions cpus ("-p5" :: rest) = .error 1 ∧
    ParseOptions cpus ["--sigwinch-pid", "42"] =
      .ok { lock_fd := -1, sigwinch_pid := 42, num_threads := cpus,
            dirty_max_index_size := -1 } :=
  ⟨rfl, rfl, rfl⟩

/-- C10: a `--lock-fd` or `--sigwinch-pid` value parsed by `ParseLong`
but outside the `int` range makes the process exit with status 1
(`ParseInt` enforces the bound), while `--dirty-max-index-size` accepts
the same value unchecked. -/
theorem intRangeEnforcementAsymmetry (cpus : Int) (s : String) (v : Int)
    (hv : ParseLong s = .ok v) (hout : v < INT_MIN ∨ v > INT_MAX) :
    ParseOptions cpus ["--lock-fd", s] = .error 1 ∧
    ParseOptions cpus ["--sigwinch-pid", s] = .error 1 ∧
    ParseOptions cpus ["--dirty-max-index-size", s] =
      .ok { lock_fd := -1, sigwinch_pid := -1, num_threads := cpus,
            dirty_max_index_size := v } := by
  have hint : ParseInt s = .error 1 := by
    unfold ParseInt
    rw [hv]
    show (if v < INT_MIN ∨ v > INT_MAX then Except.error 1 else Except.ok v) =
      Except.error 1
    rw [if_pos hout]
  have hl : applyOpt (defaultOptions cpus) 'l' s = .error 1 := by
    have e1 : applyOpt (defaultOptions cpus) 'l' s = (ParseInt s).map fun n =>
        { defaultOptions cpus with lock_fd := n } := rfl
    rw [e1, hint]
    rfl
  have hp : applyOpt (defaultOptions cpus) 'p' s = .error 1 := by
    have e1 : applyOpt (defaultOptions cpus) 'p' s = (ParseInt s).map fun n =>
        { defaultOptions cpus with sigwinch_pid := n } := rfl
    rw [e1, hint]
    rfl
  have hm : applyOpt (defaultOptions cpus) 'm' s =
      .ok { lock_fd := -1, sigwinch_pid := -1, num_threads := cpus,
            dirty_max_index_size := v } := by
    have e1 : applyOpt (defaultOptions cpus) 'm' s = (ParseLong s).map fun n =>
        { defaultOptions cpus with dirty_max_index_size := n } := rfl
    rw [e1, hv]
    rfl
  refine ⟨?_, ?_, ?_⟩
  · exact parseLoop_pending_err (defaultOptions cpus) 'l' s [] hl
  · exact parseLoop_pending_err (defaultOptions cpus) 'p' s [] hp
  · exact parseLoop_pending_ok (defaultOptions cpus) _ 'm' s [] hm

/-- C10 witness: `2^31` (one past `INT_MAX`) is rejected by the two
`int`-range-checked flags and accepted by `--dirty-max-index-size`. -/
theorem intRangeEnforcementAsymmetry_witness :
    ParseLong "2147483648" = .ok 2147483648 ∧
    ((2147483648 : Int) < INT_MIN ∨ (2147483648 : Int) > INT_MAX) ∧
    ParseOptions 8 ["--lock-fd", "2147483648"] = .error 1 ∧
    ParseOptions 8 ["--sigwinch-pid", "2147483648"] = .error 1 ∧
    ParseOptions 8 ["--dirty-max-index-size", "2147483648"] =
      .ok { lock_fd := -1, sigwinch_pid := -1, num_threads := 8,
            dirty_max_index_size := 2147483648 } :=
  ⟨rfl, by decide,
   intRangeEnforcementAsymmetry 8 "2147483648" 2147483648 rfl (by decide)⟩

end Gitstatus
